import Mathlib

/-!
Verification of the trade-level calculation and webhook dispatch logic of
`telegram_webhook_server.py`.

Modelling conventions (shallow embedding):
* Python floats are modelled as exact rationals (`ℚ`).  The spec's data model
  speaks of reals in native price units, and none of the properties below
  depend on binary floating point artefacts.
* A JSON / dict value that the code may receive is either a number or `null`
  (Python `None`); `PyVal.null` also stands for any non-numeric value, whose
  only role in the code is to make arithmetic, `float(...)` conversion or a
  comparison raise.  A dict key may also be absent, modelled by `Option PyVal`.
* Python exceptions are modelled with `Except Unit`: the body of a
  `try:` block is a monadic computation, and the `except:` clause is the
  function that maps `Except.error` to the caught-and-rejected result.
* `round(x, n)` is modelled as rounding to the nearest multiple of `10⁻ⁿ`
  (ties upward).  No property below evaluates `round` at a tie.
* Python's truthiness test (`if poc and vah and ...`) is `truthy` below:
  `None` and `0` are falsy, any other number is truthy.  The chained `and`
  short-circuits, so the `>` / `<` comparisons are reached only on truthy
  (hence numeric, in this value model) operands and never raise; they are
  therefore embedded as boolean comparisons.
-/

/-- A Python value stored in the webhook payload or in `current_data`:
a number, or `None`/non-numeric. -/
inductive PyVal where
  | num (q : ℚ)
  | null
deriving DecidableEq

/-- Python truthiness of a value: `None` and `0` are falsy. -/
def truthy : PyVal → Bool
  | .num q => q != 0
  | .null => false

/-- Using a value as a number in arithmetic; raises (`error`) on `None`. -/
def toNum : PyVal → Except Unit ℚ
  | .num q => .ok q
  | .null => .error ()

/-- `float(v)` conversion as used on the `close` field; raises on `None`
or a non-numeric value. -/
def pyFloat : PyVal → Except Unit ℚ
  | .num q => .ok q
  | .null => .error ()

/-- `v > q` for a payload value against a number (only reached on truthy,
hence numeric, `v`). -/
def pyGtQ (v : PyVal) (q : ℚ) : Bool :=
  match v with
  | .num a => decide (q < a)
  | .null => false

/-- `v < q` for a payload value against a number. -/
def pyLtQ (v : PyVal) (q : ℚ) : Bool :=
  match v with
  | .num a => decide (a < q)
  | .null => false

/-- `a > b` on two payload values. -/
def pyGtV (a b : PyVal) : Bool :=
  match a, b with
  | .num x, .num y => decide (y < x)
  | _, _ => false

/-- `a < b` on two payload values. -/
def pyLtV (a b : PyVal) : Bool :=
  match a, b with
  | .num x, .num y => decide (x < y)
  | _, _ => false

/-- The numeric content of a value (only used after a truthiness test has
established the value is a number). -/
def numOf : PyVal → ℚ
  | .num q => q
  | .null => 0

/-- The `current_data` dict handed to `calculate_trade_levels`:
keys `high`, `low`, `vah`, `poc`, `val`, each possibly absent. -/
structure CurrentData where
  high : Option PyVal
  low : Option PyVal
  vah : Option PyVal
  poc : Option PyVal
  val : Option PyVal
deriving DecidableEq

/-- Trade direction, derived from the alert message. -/
inductive Direction where
  | LONG
  | SHORT
deriving DecidableEq

/-- `TICK_SIZE = 0.25` (ES futures). -/
def TICK_SIZE : ℚ := 1/4

/-- `round(q, 2)`: rounding to 2 decimal places. -/
def round2 (q : ℚ) : ℚ := (⌊q * 100 + 1/2⌋ : ℚ) / 100

/-- `round(q, 1)`: rounding to 1 decimal place. -/
def round1 (q : ℚ) : ℚ := (⌊q * 10 + 1/2⌋ : ℚ) / 10

/-- The LONG structure-target condition
`poc and vah and poc > entry_price and vah > poc` (line 55). -/
def structCondLong (poc vah : PyVal) (entry : ℚ) : Bool :=
  truthy poc && truthy vah && pyGtQ poc entry && pyGtV vah poc

/-- The SHORT structure-target condition
`poc and val and poc < entry_price and val < poc` (line 79). -/
def structCondShort (poc pval : PyVal) (entry : ℚ) : Bool :=
  truthy poc && truthy pval && pyLtQ poc entry && pyLtV pval poc

/-- The risk as the source computes it from the (unrounded) stop:
`entry_price - sl` for LONG, `sl - entry_price` for SHORT. -/
def riskOf (d : Direction) (entry sl : ℚ) : ℚ :=
  match d with
  | .LONG => entry - sl
  | .SHORT => sl - entry

/-- The reward the RR gate inspects: `tp1 - entry_price` for LONG,
`entry_price - tp1` for SHORT. -/
def rewardOf (d : Direction) (entry tp1 : ℚ) : ℚ :=
  match d with
  | .LONG => tp1 - entry
  | .SHORT => entry - tp1

/-- The raw (pre-gate, pre-rounding) stop and targets computed by the body of
`calculate_trade_levels` (lines 46-61 for LONG, 70-85 for SHORT):
stop one tick beyond the bar extreme, then structure-based or fallback
targets.  Raises when the `low` (resp. `high`) value is non-numeric. -/
def rawLevels (d : Direction) (entry : ℚ) (cd : CurrentData) :
    Except Unit (ℚ × ℚ × ℚ) := do
  match d with
  | .LONG =>
    let lowv ← toNum (cd.low.getD (.num entry))
    let sl := lowv - TICK_SIZE
    let risk := entry - sl
    let poc := cd.poc.getD .null
    let vah := cd.vah.getD .null
    if structCondLong poc vah entry then
      pure (sl, numOf poc, numOf vah)
    else
      pure (sl, entry + risk * 2, entry + risk * 4)
  | .SHORT =>
    let highv ← toNum (cd.high.getD (.num entry))
    let sl := highv + TICK_SIZE
    let risk := sl - entry
    let poc := cd.poc.getD .null
    let pval := cd.val.getD .null
    if structCondShort poc pval entry then
      pure (sl, numOf poc, numOf pval)
    else
      pure (sl, entry - risk * 2, entry - risk * 4)

/-- The body of the `try:` block of `calculate_trade_levels` (lines 46-92):
raw levels, the `reward < risk` gate (returning the rejected triple), then
rounding to two decimals. -/
def innerCalc (d : Direction) (entry : ℚ) (cd : CurrentData) :
    Except Unit (Option (ℚ × ℚ × ℚ)) := do
  let (sl, tp1, tp2) ← rawLevels d entry cd
  if rewardOf d entry tp1 < riskOf d entry sl then
    pure none
  else
    pure (some (round2 sl, round2 tp1, round2 tp2))

/-- `calculate_trade_levels` (lines 36-96): the `try:` body with the
`except:` clause mapping any exception to the rejected result
`(None, None, None)`, here `none`. -/
def calculate_trade_levels (d : Direction) (entry : ℚ) (cd : CurrentData) :
    Option (ℚ × ℚ × ℚ) :=
  match innerCalc d entry cd with
  | .ok r => r
  | .error _ => none

/-- Uppercasing a message, `alert_message.upper()`. -/
def upperL (s : List Char) : List Char := s.map Char.toUpper

/-- Whether the first list is an initial segment of the second. -/
def leadsWith : List Char → List Char → Bool
  | [], _ => true
  | _ :: _, [] => false
  | a :: as, b :: bs => a == b && leadsWith as bs

/-- Python's `needle in hay` substring test on strings. -/
def hasSub (needle : List Char) : List Char → Bool
  | [] => leadsWith needle []
  | b :: bs => leadsWith needle (b :: bs) || hasSub needle bs

/-- The literal `"BUY"`. -/
def kwBUY : List Char := ['B', 'U', 'Y']

/-- The literal `"SELL"`. -/
def kwSELL : List Char := ['S', 'E', 'L', 'L']

/-- The literal `"TP1"`. -/
def kwTP1 : List Char := ['T', 'P', '1']

/-- The literal `"TP2"`. -/
def kwTP2 : List Char := ['T', 'P', '2']

/-- The literal `"BE"`. -/
def kwBE : List Char := ['B', 'E']

/-- The literal `"SL"`. -/
def kwSL : List Char := ['S', 'L']

/-- Direction extraction from the alert message (lines 112-121):
`'BUY' in alert_message.upper()` first, `'SELL'` only in the `elif`. -/
def detectDirection (msg : List Char) : Option Direction :=
  if hasSub kwBUY (upperL msg) then some .LONG
  else if hasSub kwSELL (upperL msg) then some .SHORT
  else none

/-- The management-alert test (line 124):
`any(keyword in alert_message for keyword in ['TP1', 'TP2', 'BE', 'SL'])` —
note it scans the raw `alert_message`, not its uppercased form. -/
def mgmtAlert (msg : List Char) : Bool :=
  hasSub kwTP1 msg || hasSub kwTP2 msg || hasSub kwBE msg || hasSub kwSL msg

/-- An inbound webhook payload: the JSON fields the handler reads.  Each
field may be absent; `message` defaults to the empty string (line 110),
so it is kept as a plain string. -/
structure Payload where
  close : Option PyVal
  high : Option PyVal
  low : Option PyVal
  vah : Option PyVal
  poc : Option PyVal
  val : Option PyVal
  message : List Char
deriving DecidableEq

/-- The webhook's JSON response, abstracted to its discriminating content:
`management` = `{status: success, type: management}`,
`entry` = `{status: success, type: entry, levels: {...}}`,
`rejected` = `{status: rejected, reason: RR < 1:1}`,
`unknownAlert` = `{status: unknown_alert}` (HTTP 400),
`error` = `{status: error, message}` (HTTP 500). -/
inductive Resp where
  | management
  | entry (price sl tp1 tp2 rr : ℚ)
  | rejected
  | unknownAlert
  | error
deriving DecidableEq

/-- The body of the `try:` block of the `/webhook` handler (lines 104-190):
extract the price with `float(data.get('close', 0))`, derive the direction,
short-circuit management alerts, else compute levels on
`current_data` (with `high`/`low` defaulting to `price ± 2`), reject when no
levels, and otherwise report levels with the display RR ratio from `tp2`. -/
def webhookE (p : Payload) : Except Unit Resp := do
  let price ← pyFloat (p.close.getD (.num 0))
  let msg := p.message
  if mgmtAlert msg then
    pure .management
  else
    match detectDirection msg with
    | some d =>
      let cd : CurrentData :=
        { high := some (p.high.getD (.num (price + 2)))
          low := some (p.low.getD (.num (price - 2)))
          vah := p.vah
          poc := p.poc
          val := p.val }
      match calculate_trade_levels d price cd with
      | none => pure .rejected
      | some (sl, tp1, tp2) =>
        let risk := riskOf d price sl
        let rewardTp2 :=
          match d with
          | .LONG => tp2 - price
          | .SHORT => price - tp2
        let rr := if 0 < risk then round1 (rewardTp2 / risk) else 0
        pure (.entry price sl tp1 tp2 rr)
    | none => pure .unknownAlert

/-- The `/webhook` handler (lines 102-196): the `try:` body with the
boundary `except:` clause mapping any exception to the HTTP 500 error
response. -/
def webhook (p : Payload) : Resp :=
  match webhookE p with
  | .ok r => r
  | .error _ => .error

/-! Small unfolding lemmas for the `Except` monad, and closed forms of the
raw-level computation, shared by the proofs below. -/

theorem bindOk {α β : Type} (a : α) (f : α → Except Unit β) :
    (Except.ok a >>= f) = f a := rfl

theorem bindErr {α β : Type} (f : α → Except Unit β) :
    ((Except.error () : Except Unit α) >>= f) = .error () := rfl

theorem pureOk {α : Type} (a : α) : (pure a : Except Unit α) = .ok a := rfl

/-- Closed form of `rawLevels` for LONG once the `low` value is a number. -/
theorem rawLong (entry l : ℚ) (cd : CurrentData) (hlow : cd.low = some (.num l)) :
    rawLevels .LONG entry cd =
      .ok (l - TICK_SIZE,
        if structCondLong (cd.poc.getD .null) (cd.vah.getD .null) entry then
          (numOf (cd.poc.getD .null), numOf (cd.vah.getD .null))
        else
          (entry + (entry - (l - TICK_SIZE)) * 2, entry + (entry - (l - TICK_SIZE)) * 4)) := by
  simp only [rawLevels, hlow, Option.getD_some, toNum, bindOk]
  split <;> rfl

/-- Closed form of `rawLevels` for SHORT once the `high` value is a number. -/
theorem rawShort (entry h : ℚ) (cd : CurrentData) (hhigh : cd.high = some (.num h)) :
    rawLevels .SHORT entry cd =
      .ok (h + TICK_SIZE,
        if structCondShort (cd.poc.getD .null) (cd.val.getD .null) entry then
          (numOf (cd.poc.getD .null), numOf (cd.val.getD .null))
        else
          (entry - ((h + TICK_SIZE) - entry) * 2, entry - ((h + TICK_SIZE) - entry) * 4)) := by
  simp only [rawLevels, hhigh, Option.getD_some, toNum, bindOk]
  split <;> rfl

/-- `calculate_trade_levels` in terms of its raw levels: the `reward < risk`
gate decides between rejection and the rounded triple. -/
theorem calcIte (d : Direction) (entry : ℚ) (cd : CurrentData) (sl tp1 tp2 : ℚ)
    (hraw : rawLevels d entry cd = .ok (sl, tp1, tp2)) :
    calculate_trade_levels d entry cd =
      if rewardOf d entry tp1 < riskOf d entry sl then none
      else some (round2 sl, round2 tp1, round2 tp2) := by
  by_cases hc : rewardOf d entry tp1 < riskOf d entry sl <;>
    simp only [calculate_trade_levels, innerCalc, hraw, bindOk, if_pos, if_neg, hc,
      if_true, if_false, pureOk]

/-- C2: once the computation reaches the risk-reward gate (the raw levels are
defined), `calculate_trade_levels` returns the rejected result `(None, None,
None)` if and only if target1's reward is strictly below the risk; in the
boundary case `reward = risk` the signal is not rejected and the rounded
levels are returned. -/
theorem C2_gate_iff (d : Direction) (entry sl tp1 tp2 : ℚ) (cd : CurrentData)
    (hraw : rawLevels d entry cd = .ok (sl, tp1, tp2)) :
    (calculate_trade_levels d entry cd = none ↔
      rewardOf d entry tp1 < riskOf d entry sl) ∧
    (rewardOf d entry tp1 = riskOf d entry sl →
      calculate_trade_levels d entry cd = some (round2 sl, round2 tp1, round2 tp2)) := by
  constructor
  · rw [calcIte d entry cd sl tp1 tp2 hraw]
    by_cases hc : rewardOf d entry tp1 < riskOf d entry sl <;> simp [hc]
  · intro he
    rw [calcIte d entry cd sl tp1 tp2 hraw, if_neg (by rw [he]; exact lt_irrefl _)]

/-- Witness for C2: LONG, entry 100, bar low 98, structure targets poc
102.25 / vah 103; reward 2.25 equals risk 2.25 and the signal is accepted. -/
theorem C2_gate_iff_witness :
    rawLevels .LONG 100
      { high := none, low := some (.num 98), vah := some (.num 103),
        poc := some (.num 102.25), val := none } = .ok (97.75, 102.25, 103) ∧
    calculate_trade_levels .LONG 100
      { high := none, low := some (.num 98), vah := some (.num 103),
        poc := some (.num 102.25), val := none } = some (97.75, 102.25, 103) := by
  have hraw : rawLevels .LONG 100
      { high := none, low := some (.num 98), vah := some (.num 103),
        poc := some (.num 102.25), val := none } = .ok (97.75, 102.25, 103) := by
    norm_num [rawLevels, structCondLong, truthy, pyGtQ, pyGtV, numOf, toNum,
      TICK_SIZE, bindOk, pureOk]
  have h2 := (C2_gate_iff .LONG 100 97.75 102.25 103 _ hraw).2
    (by norm_num [rewardOf, riskOf])
  refine ⟨hraw, ?_⟩
  rw [h2]
  norm_num [round2]

/-- C4: every accepted signal carries the stop `round(barLow - TICK_SIZE, 2)`
for LONG and `round(barHigh + TICK_SIZE, 2)` for SHORT, with
`TICK_SIZE = 0.25`. -/
theorem C4_stop_formula (entry l h sl tp1 tp2 : ℚ) (cd : CurrentData) :
    (cd.low = some (.num l) →
      calculate_trade_levels .LONG entry cd = some (sl, tp1, tp2) →
      sl = round2 (l - TICK_SIZE)) ∧
    (cd.high = some (.num h) →
      calculate_trade_levels .SHORT entry cd = some (sl, tp1, tp2) →
      sl = round2 (h + TICK_SIZE)) := by
  constructor
  · intro hlow hcalc
    rcases hq : (if structCondLong (cd.poc.getD .null) (cd.vah.getD .null) entry then
        (numOf (cd.poc.getD .null), numOf (cd.vah.getD .null))
      else (entry + (entry - (l - TICK_SIZE)) * 2,
        entry + (entry - (l - TICK_SIZE)) * 4)) with ⟨t1, t2⟩
    have hraw := rawLong entry l cd hlow
    rw [hq] at hraw
    rw [calcIte .LONG entry cd (l - TICK_SIZE) t1 t2 hraw] at hcalc
    by_cases hc : rewardOf .LONG entry t1 < riskOf .LONG entry (l - TICK_SIZE)
    · rw [if_pos hc] at hcalc
      exact absurd hcalc (by simp)
    · rw [if_neg hc] at hcalc
      simp only [Option.some.injEq, Prod.mk.injEq] at hcalc
      exact hcalc.1.symm
  · intro hhigh hcalc
    rcases hq : (if structCondShort (cd.poc.getD .null) (cd.val.getD .null) entry then
        (numOf (cd.poc.getD .null), numOf (cd.val.getD .null))
      else (entry - ((h + TICK_SIZE) - entry) * 2,
        entry - ((h + TICK_SIZE) - entry) * 4)) with ⟨t1, t2⟩
    have hraw := rawShort entry h cd hhigh
    rw [hq] at hraw
    rw [calcIte .SHORT entry cd (h + TICK_SIZE) t1 t2 hraw] at hcalc
    by_cases hc : rewardOf .SHORT entry t1 < riskOf .SHORT entry (h + TICK_SIZE)
    · rw [if_pos hc] at hcalc
      exact absurd hcalc (by simp)
    · rw [if_neg hc] at hcalc
      simp only [Option.some.injEq, Prod.mk.injEq] at hcalc
      exact hcalc.1.symm

/-- Witness for C4: the accepted LONG example (entry 100, low 98) returns
stop 97.75, which is `round(98 - 0.25, 2)`. -/
theorem C4_stop_formula_witness :
    calculate_trade_levels .LONG 100
      { high := none, low := some (.num 98), vah := none, poc := none, val := none }
      = some (97.75, 104.5, 109) ∧
    (97.75 : ℚ) = round2 (98 - TICK_SIZE) := by
  have hcalc : calculate_trade_levels .LONG 100
      { high := none, low := some (.num 98), vah := none, poc := none, val := none }
      = some (97.75, 104.5, 109) := by
    norm_num [calculate_trade_levels, innerCalc, rawLevels, structCondLong, truthy, toNum,
      TICK_SIZE, rewardOf, riskOf, round2, bindOk, pureOk]
  exact ⟨hcalc, (C4_stop_formula 100 98 0 97.75 104.5 109 _).1 rfl hcalc⟩

/-- C6: any exception raised inside the `try:` body of
`calculate_trade_levels` is caught and turned into the full-rejection result
`(None, None, None)`; no exception escapes to the caller. -/
theorem C6_exception_rejected (d : Direction) (entry : ℚ) (cd : CurrentData)
    (h : innerCalc d entry cd = .error ()) :
    calculate_trade_levels d entry cd = none := by
  simp [calculate_trade_levels, h]

/-- Witness for C6: a LONG signal whose `low` value is `None` makes the body
raise (arithmetic on `None`), and the function returns the rejected result. -/
theorem C6_exception_rejected_witness :
    innerCalc .LONG 100
      { high := none, low := some .null, vah := none, poc := none, val := none }
      = .error () ∧
    calculate_trade_levels .LONG 100
      { high := none, low := some .null, vah := none, poc := none, val := none }
      = none :=
  ⟨rfl, C6_exception_rejected .LONG 100 _ rfl⟩

/-- C8: the two worked examples of the spec.  LONG with entry 100 and low 98
and no reference levels is accepted with stop 97.75 and targets 104.5 / 109;
SHORT with entry 100, high 102, poc 99, val 97 is rejected because the
target1 reward 1 is below the risk 2.25. -/
theorem C8_spec_examples :
    calculate_trade_levels .LONG 100
      { high := none, low := some (.num 98), vah := none, poc := none, val := none }
      = some (97.75, 104.5, 109) ∧
    calculate_trade_levels .SHORT 100
      { high := some (.num 102), low := none, vah := none, poc := some (.num 99),
        val := some (.num 97) } = none := by
  constructor
  · norm_num [calculate_trade_levels, innerCalc, rawLevels, structCondLong, truthy, toNum,
      TICK_SIZE, rewardOf, riskOf, round2, bindOk, pureOk]
  · norm_num [calculate_trade_levels, innerCalc, rawLevels, structCondShort, truthy, toNum,
      pyLtQ, pyLtV, numOf, TICK_SIZE, rewardOf, riskOf, round2, bindOk, pureOk]

/-- C1 counterexample: LONG with entry 100 and low 100.25 gives stop 100 and
risk 0 ≤ 0, yet `calculate_trade_levels` accepts the signal and returns
levels (100, 100, 100) — there is no standalone `risk ≤ 0` rejection in the
code, only the `reward < risk` gate, which does not fire at risk = 0. -/
theorem C1_counterexample :
    riskOf .LONG 100 (100.25 - TICK_SIZE) ≤ 0 ∧
    calculate_trade_levels .LONG 100
      { high := none, low := some (.num 100.25), vah := none, poc := none, val := none }
      = some (100, 100, 100) := by
  constructor
  · norm_num [riskOf, TICK_SIZE]
  · norm_num [calculate_trade_levels, innerCalc, rawLevels, structCondLong, truthy, toNum,
      TICK_SIZE, rewardOf, riskOf, round2, bindOk, pureOk]

/-- C1 amended: a strictly negative risk is rejected whenever the fallback
targets apply (structure condition false), because then the gate reward is
`2 × risk < risk`; risk = 0, or structure-based targets, can still be
accepted. -/
theorem C1_neg_risk_fallback (entry l h : ℚ) (cd : CurrentData) :
    (cd.low = some (.num l) →
      structCondLong (cd.poc.getD .null) (cd.vah.getD .null) entry = false →
      riskOf .LONG entry (l - TICK_SIZE) < 0 →
      calculate_trade_levels .LONG entry cd = none) ∧
    (cd.high = some (.num h) →
      structCondShort (cd.poc.getD .null) (cd.val.getD .null) entry = false →
      riskOf .SHORT entry (h + TICK_SIZE) < 0 →
      calculate_trade_levels .SHORT entry cd = none) := by
  constructor
  · intro hlow hcond hrisk
    simp only [riskOf] at hrisk
    have hraw := rawLong entry l cd hlow
    rw [hcond] at hraw
    simp only [Bool.false_eq_true, if_false] at hraw
    rw [calcIte .LONG entry cd (l - TICK_SIZE)
      (entry + (entry - (l - TICK_SIZE)) * 2) (entry + (entry - (l - TICK_SIZE)) * 4) hraw]
    rw [if_pos]
    simp only [rewardOf, riskOf]
    linarith
  · intro hhigh hcond hrisk
    simp only [riskOf] at hrisk
    have hraw := rawShort entry h cd hhigh
    rw [hcond] at hraw
    simp only [Bool.false_eq_true, if_false] at hraw
    rw [calcIte .SHORT entry cd (h + TICK_SIZE)
      (entry - ((h + TICK_SIZE) - entry) * 2) (entry - ((h + TICK_SIZE) - entry) * 4) hraw]
    rw [if_pos]
    simp only [rewardOf, riskOf]
    linarith

/-- Witness for the amended C1: LONG, entry 100, low 105 (an inverted bar)
with no reference levels has risk −4.75 < 0 and is rejected. -/
theorem C1_neg_risk_fallback_witness :
    riskOf .LONG 100 (105 - TICK_SIZE) < 0 ∧
    calculate_trade_levels .LONG 100
      { high := none, low := some (.num 105), vah := none, poc := none, val := none }
      = none := by
  refine ⟨by norm_num [riskOf, TICK_SIZE], ?_⟩
  exact (C1_neg_risk_fallback 100 105 0 _).1 rfl rfl (by norm_num [riskOf, TICK_SIZE])

/-- C3 counterexample: SHORT, entry 100, high 102, with both reference levels
provided — poc = 50 and val = 0 — and the documented ordering holding
(50 < 100 and 0 < 50).  The claim demands the structure-based targets
(tp1 = 50, tp2 = 0), but `val = 0` is falsy under Python's `if poc and val`
test, so the code uses the fallback targets 95.5 and 91 instead. -/
theorem C3_counterexample :
    ((50 : ℚ) < 100 ∧ (0 : ℚ) < 50) ∧
    calculate_trade_levels .SHORT 100
      { high := some (.num 102), low := none, vah := none, poc := some (.num 50),
        val := some (.num 0) } = some (102.25, 95.5, 91) := by
  refine ⟨⟨by norm_num, by norm_num⟩, ?_⟩
  norm_num [calculate_trade_levels, innerCalc, rawLevels, structCondShort, truthy, toNum,
    pyLtQ, pyLtV, numOf, TICK_SIZE, rewardOf, riskOf, round2, bindOk, pureOk]

/-- C3 amended: structure-based targets are chosen iff both reference levels
are provided, truthy (non-`None` and nonzero), and the documented ordering
holds; in every other case the raw targets are the 2:1 / 4:1 fallback around
the entry, using the risk from the unrounded stop. -/
theorem C3_truthiness (entry l h : ℚ) (cd : CurrentData) :
    (structCondLong (cd.poc.getD .null) (cd.vah.getD .null) entry = true ↔
      ∃ p v, cd.poc.getD .null = .num p ∧ cd.vah.getD .null = .num v ∧
        p ≠ 0 ∧ v ≠ 0 ∧ entry < p ∧ p < v) ∧
    (structCondShort (cd.poc.getD .null) (cd.val.getD .null) entry = true ↔
      ∃ p v, cd.poc.getD .null = .num p ∧ cd.val.getD .null = .num v ∧
        p ≠ 0 ∧ v ≠ 0 ∧ p < entry ∧ v < p) ∧
    (cd.low = some (.num l) →
      rawLevels .LONG entry cd =
        .ok (l - TICK_SIZE,
          if structCondLong (cd.poc.getD .null) (cd.vah.getD .null) entry then
            (numOf (cd.poc.getD .null), numOf (cd.vah.getD .null))
          else
            (entry + (entry - (l - TICK_SIZE)) * 2,
              entry + (entry - (l - TICK_SIZE)) * 4))) ∧
    (cd.high = some (.num h) →
      rawLevels .SHORT entry cd =
        .ok (h + TICK_SIZE,
          if structCondShort (cd.poc.getD .null) (cd.val.getD .null) entry then
            (numOf (cd.poc.getD .null), numOf (cd.val.getD .null))
          else
            (entry - ((h + TICK_SIZE) - entry) * 2,
              entry - ((h + TICK_SIZE) - entry) * 4))) := by
  refine ⟨?_, ?_, fun hl => rawLong entry l cd hl, fun hh => rawShort entry h cd hh⟩
  · cases hp : cd.poc.getD .null with
    | null => simp [structCondLong, truthy]
    | num p =>
      cases hv : cd.vah.getD .null with
      | null => simp [structCondLong, truthy]
      | num v =>
        simp only [structCondLong, truthy, pyGtQ, pyGtV, Bool.and_eq_true, bne_iff_ne,
          ne_eq, decide_eq_true_eq, PyVal.num.injEq]
        constructor
        · rintro ⟨⟨⟨hp0, hv0⟩, hep⟩, hpv⟩
          exact ⟨p, v, rfl, rfl, hp0, hv0, hep, hpv⟩
        · rintro ⟨p', v', hp', hv', hp0, hv0, hep, hpv⟩
          subst hp'
          subst hv'
          exact ⟨⟨⟨hp0, hv0⟩, hep⟩, hpv⟩
  · cases hp : cd.poc.getD .null with
    | null => simp [structCondShort, truthy]
    | num p =>
      cases hv : cd.val.getD .null with
      | null => simp [structCondShort, truthy]
      | num v =>
        simp only [structCondShort, truthy, pyLtQ, pyLtV, Bool.and_eq_true, bne_iff_ne,
          ne_eq, decide_eq_true_eq, PyVal.num.injEq]
        constructor
        · rintro ⟨⟨⟨hp0, hv0⟩, hep⟩, hpv⟩
          exact ⟨p, v, rfl, rfl, hp0, hv0, hep, hpv⟩
        · rintro ⟨p', v', hp', hv', hp0, hv0, hep, hpv⟩
          subst hp'
          subst hv'
          exact ⟨⟨⟨hp0, hv0⟩, hep⟩, hpv⟩

/-- Witness for the amended C3: LONG, entry 100, low 98, poc 102, vah 103 —
both levels provided, truthy, correctly ordered — selects the structure
targets (102, 103) in the raw levels. -/
theorem C3_truthiness_witness :
    structCondLong (PyVal.num 102) (PyVal.num 103) 100 = true ∧
    rawLevels .LONG 100
      { high := none, low := some (.num 98), vah := some (.num 103),
        poc := some (.num 102), val := none } = .ok (97.75, 102, 103) := by
  have h := C3_truthiness 100 98 0
    { high := none, low := some (.num 98), vah := some (.num 103),
      poc := some (.num 102), val := none }
  have hcond : structCondLong (PyVal.num 102) (PyVal.num 103) 100 = true :=
    h.1.mpr ⟨102, 103, rfl, rfl, by norm_num, by norm_num, by norm_num, by norm_num⟩
  refine ⟨hcond, ?_⟩
  have hr := h.2.2.1 rfl
  simp only [Option.getD_some] at hr
  rw [hr, if_pos hcond]
  norm_num [numOf, TICK_SIZE]

/-- C7 counterexample: LONG with entry 100 and low 98.1 is accepted with
stop 97.85, which is not a multiple of the 0.25 tick size — the final
adjustment is a 2-decimal rounding, not a snap to tick granularity. -/
theorem C7_counterexample :
    calculate_trade_levels .LONG 100
      { high := none, low := some (.num 98.1), vah := none, poc := none, val := none }
      = some (97.85, 104.3, 108.6) ∧
    ¬ ∃ k : ℤ, (97.85 : ℚ) = k * TICK_SIZE := by
  constructor
  · norm_num [calculate_trade_levels, innerCalc, rawLevels, structCondLong, truthy, toNum,
      TICK_SIZE, rewardOf, riskOf, round2, bindOk, pureOk]
  · rintro ⟨k, hk⟩
    rw [TICK_SIZE] at hk
    have h5 : ((5 * k : ℤ) : ℚ) = 1957 := by push_cast; linarith
    have h6 : (5 * k : ℤ) = 1957 := by exact_mod_cast h5
    omega

/-- C7 amended: the final adjustment is rounding to 2 decimal places
(granularity 0.01), applied to the stop and to both targets; the tick size
0.25 enters only as the offset defining the raw stop, and the fallback
targets use the risk computed from the unrounded stop. -/
theorem C7_rounding (entry l h sl tp1 tp2 : ℚ) (cd : CurrentData) :
    (cd.low = some (.num l) →
      calculate_trade_levels .LONG entry cd = some (sl, tp1, tp2) →
      sl = round2 (l - TICK_SIZE) ∧
      (∃ k1 k2 k3 : ℤ, sl = k1 / 100 ∧ tp1 = k2 / 100 ∧ tp2 = k3 / 100) ∧
      (structCondLong (cd.poc.getD .null) (cd.vah.getD .null) entry = false →
        tp1 = round2 (entry + (entry - (l - TICK_SIZE)) * 2) ∧
        tp2 = round2 (entry + (entry - (l - TICK_SIZE)) * 4))) ∧
    (cd.high = some (.num h) →
      calculate_trade_levels .SHORT entry cd = some (sl, tp1, tp2) →
      sl = round2 (h + TICK_SIZE) ∧
      (∃ k1 k2 k3 : ℤ, sl = k1 / 100 ∧ tp1 = k2 / 100 ∧ tp2 = k3 / 100) ∧
      (structCondShort (cd.poc.getD .null) (cd.val.getD .null) entry = false →
        tp1 = round2 (entry - ((h + TICK_SIZE) - entry) * 2) ∧
        tp2 = round2 (entry - ((h + TICK_SIZE) - entry) * 4))) := by
  constructor
  · intro hlow hcalc
    rcases hq : (if structCondLong (cd.poc.getD .null) (cd.vah.getD .null) entry then
        (numOf (cd.poc.getD .null), numOf (cd.vah.getD .null))
      else (entry + (entry - (l - TICK_SIZE)) * 2,
        entry + (entry - (l - TICK_SIZE)) * 4)) with ⟨t1, t2⟩
    have hraw := rawLong entry l cd hlow
    rw [hq] at hraw
    rw [calcIte .LONG entry cd (l - TICK_SIZE) t1 t2 hraw] at hcalc
    by_cases hc : rewardOf .LONG entry t1 < riskOf .LONG entry (l - TICK_SIZE)
    · rw [if_pos hc] at hcalc
      exact absurd hcalc (by simp)
    · rw [if_neg hc] at hcalc
      simp only [Option.some.injEq, Prod.mk.injEq] at hcalc
      obtain ⟨h1, h2, h3⟩ := hcalc
      refine ⟨h1.symm, ⟨⌊(l - TICK_SIZE) * 100 + 1/2⌋, ⌊t1 * 100 + 1/2⌋,
        ⌊t2 * 100 + 1/2⌋, by rw [← h1, round2], by rw [← h2, round2], by rw [← h3, round2]⟩,
        ?_⟩
      intro hcond
      rw [hcond] at hq
      simp only [Bool.false_eq_true, if_false, Prod.mk.injEq] at hq
      rw [← h2, ← h3, ← hq.1, ← hq.2]
      exact ⟨rfl, rfl⟩
  · intro hhigh hcalc
    rcases hq : (if structCondShort (cd.poc.getD .null) (cd.val.getD .null) entry then
        (numOf (cd.poc.getD .null), numOf (cd.val.getD .null))
      else (entry - ((h + TICK_SIZE) - entry) * 2,
        entry - ((h + TICK_SIZE) - entry) * 4)) with ⟨t1, t2⟩
    have hraw := rawShort entry h cd hhigh
    rw [hq] at hraw
    rw [calcIte .SHORT entry cd (h + TICK_SIZE) t1 t2 hraw] at hcalc
    by_cases hc : rewardOf .SHORT entry t1 < riskOf .SHORT entry (h + TICK_SIZE)
    · rw [if_pos hc] at hcalc
      exact absurd hcalc (by simp)
    · rw [if_neg hc] at hcalc
      simp only [Option.some.injEq, Prod.mk.injEq] at hcalc
      obtain ⟨h1, h2, h3⟩ := hcalc
      refine ⟨h1.symm, ⟨⌊(h + TICK_SIZE) * 100 + 1/2⌋, ⌊t1 * 100 + 1/2⌋,
        ⌊t2 * 100 + 1/2⌋, by rw [← h1, round2], by rw [← h2, round2], by rw [← h3, round2]⟩,
        ?_⟩
      intro hcond
      rw [hcond] at hq
      simp only [Bool.false_eq_true, if_false, Prod.mk.injEq] at hq
      rw [← h2, ← h3, ← hq.1, ← hq.2]
      exact ⟨rfl, rfl⟩

/-- Witness for the amended C7: the accepted LONG example (entry 100,
low 98); the stop and both fallback targets are the 2-decimal roundings of
their raw values, with the risk taken from the unrounded stop 97.75. -/
theorem C7_rounding_witness :
    calculate_trade_levels .LONG 100
      { high := none, low := some (.num 98), vah := none, poc := none, val := none }
      = some (97.75, 104.5, 109) ∧
    (97.75 : ℚ) = round2 (98 - TICK_SIZE) ∧
    (104.5 : ℚ) = round2 (100 + (100 - (98 - TICK_SIZE)) * 2) ∧
    (109 : ℚ) = round2 (100 + (100 - (98 - TICK_SIZE)) * 4) := by
  have hcalc : calculate_trade_levels .LONG 100
      { high := none, low := some (.num 98), vah := none, poc := none, val := none }
      = some (97.75, 104.5, 109) := by
    norm_num [calculate_trade_levels, innerCalc, rawLevels, structCondLong, truthy, toNum,
      TICK_SIZE, rewardOf, riskOf, round2, bindOk, pureOk]
  have h := (C7_rounding 100 98 0 97.75 104.5 109 _).1 rfl hcalc
  exact ⟨hcalc, h.1, (h.2.2 rfl).1, (h.2.2 rfl).2⟩

/-- C5 counterexample: the message `"sl hit"` contains the keyword `SL`
case-insensitively, but the code's keyword scan is case-sensitive (it scans
the raw message, unlike the upper-cased direction scan), so the webhook does
not return the management response — it falls through to `unknown_alert`. -/
theorem C5_counterexample :
    hasSub kwSL (upperL ['s', 'l', ' ', 'h', 'i', 't']) = true ∧
    webhook
      { close := none, high := none, low := none, vah := none, poc := none,
        val := none, message := ['s', 'l', ' ', 'h', 'i', 't'] } = .unknownAlert := by
  constructor
  · decide
  · decide

/-- C5 amended: the maintenance keywords TP1/TP2/BE/SL are matched
case-sensitively against the raw message; whenever one matches — and the
preceding `float(close)` extraction does not raise — the webhook
short-circuits to the management response without any level computation,
even if the message also contains BUY or SELL. -/
theorem C5_mgmt_shortcircuit (p : Payload) (q : ℚ)
    (h1 : mgmtAlert p.message = true)
    (h2 : pyFloat (p.close.getD (.num 0)) = .ok q) :
    webhook p = .management := by
  simp [webhook, webhookE, h2, bindOk, h1, pureOk]

/-- Witness for the amended C5: a `"TP1 hit"` message with no close field
yields the management response. -/
theorem C5_mgmt_shortcircuit_witness :
    mgmtAlert ['T', 'P', '1', ' ', 'h', 'i', 't'] = true ∧
    webhook
      { close := none, high := none, low := none, vah := none, poc := none,
        val := none, message := ['T', 'P', '1', ' ', 'h', 'i', 't'] } = .management :=
  ⟨by decide, C5_mgmt_shortcircuit _ 0 (by decide) rfl⟩

/-- C9: a message containing both BUY and SELL (case-insensitively) and no
management keyword is classified LONG — the BUY test runs first and SELL is
only examined in the `elif`. -/
theorem C9_buy_precedence (msg : List Char)
    (h1 : hasSub kwBUY (upperL msg) = true)
    (h2 : hasSub kwSELL (upperL msg) = true)
    (h3 : mgmtAlert msg = false) :
    detectDirection msg = some .LONG := by
  simp [detectDirection, h1]

/-- Witness for C9: the message `"BUY SELL"` contains both keywords, no
management keyword, and is classified LONG. -/
theorem C9_buy_precedence_witness :
    hasSub kwBUY (upperL ['B', 'U', 'Y', ' ', 'S', 'E', 'L', 'L']) = true ∧
    hasSub kwSELL (upperL ['B', 'U', 'Y', ' ', 'S', 'E', 'L', 'L']) = true ∧
    mgmtAlert ['B', 'U', 'Y', ' ', 'S', 'E', 'L', 'L'] = false ∧
    detectDirection ['B', 'U', 'Y', ' ', 'S', 'E', 'L', 'L'] = some .LONG :=
  ⟨by decide, by decide, by decide,
    C9_buy_precedence _ (by decide) (by decide) (by decide)⟩

/-- C10: a payload with no `close` field is processed exactly as if
`close = 0` (`float(data.get('close', 0))`), and when the missing entry
price is the only anomaly (all other optional numeric fields absent), the
webhook never answers with the error response or the rejected response. -/
theorem C10_missing_close (p : Payload) (hc : p.close = none) :
    webhook p = webhook { p with close := some (.num 0) } ∧
    (p.high = none → p.low = none → p.vah = none → p.poc = none → p.val = none →
      webhook p ≠ .error ∧ webhook p ≠ .rejected) := by
  constructor
  · simp only [webhook, webhookE, hc, Option.getD_none, Option.getD_some]
  · intro h1 h2 h3 h4 h5
    by_cases hm : mgmtAlert p.message
    · constructor <;> simp [webhook, webhookE, hc, hm, pyFloat, bindOk, pureOk]
    · rcases hd : detectDirection p.message with _ | d
      · constructor <;> simp [webhook, webhookE, hc, hm, hd, pyFloat, bindOk, pureOk]
      · cases d
        · constructor <;>
            · simp only [webhook, webhookE, hc, hm, hd, h1, h2, h3, h4, h5, Option.getD_none,
                Bool.false_eq_true, if_false, pyFloat, bindOk, pureOk]
              norm_num [calculate_trade_levels, innerCalc, rawLevels, structCondLong, truthy,
                toNum, TICK_SIZE, rewardOf, riskOf, round2, round1, bindOk, pureOk]
              simp
        · constructor <;>
            · simp only [webhook, webhookE, hc, hm, hd, h1, h2, h3, h4, h5, Option.getD_none,
                Bool.false_eq_true, if_false, pyFloat, bindOk, pureOk]
              norm_num [calculate_trade_levels, innerCalc, rawLevels, structCondShort, truthy,
                toNum, pyLtQ, pyLtV, numOf, TICK_SIZE, rewardOf, riskOf, round2, round1,
                bindOk, pureOk]
              simp

/-- Witness for C10: an empty payload (no fields at all, message
`"BUY"`) is handled like `close = 0` and yields neither an error nor a
rejection. -/
theorem C10_missing_close_witness :
    webhook
      { close := none, high := none, low := none, vah := none, poc := none,
        val := none, message := ['B', 'U', 'Y'] } =
      webhook
        { close := some (.num 0), high := none, low := none, vah := none, poc := none,
          val := none, message := ['B', 'U', 'Y'] } ∧
    webhook
      { close := none, high := none, low := none, vah := none, poc := none,
        val := none, message := ['B', 'U', 'Y'] } ≠ .error ∧
    webhook
      { close := none, high := none, low := none, vah := none, poc := none,
        val := none, message := ['B', 'U', 'Y'] } ≠ .rejected := by
  have h := C10_missing_close
    { close := none, high := none, low := none, vah := none, poc := none,
      val := none, message := ['B', 'U', 'Y'] } rfl
  exact ⟨h.1, (h.2 rfl rfl rfl rfl rfl).1, (h.2 rfl rfl rfl rfl rfl).2⟩
